import Mathlib

/-!
# Verification of the HEXRD-GUI template-manipulation and mask-registry core

Shallow embedding of `hexrd/ui/interactive_template.py` (class
`InteractiveTemplate`) and `hexrd/ui/mask_manager_dialog.py` (class
`MaskManagerDialog`), together with proofs about the embedded operations.

Conventions used throughout:

* A polygon vertex is a pair of real numbers.  The NaN sentinel rows that
  numpy uses to separate sub-loops are modelled by `Option`: a vertex that
  is `none` stands for a `[nan, nan]` row, and arithmetic on vertices maps
  `none` to `none`, mirroring NaN propagation.
* Machine floats are modelled by `ℝ`.  A float computation that produces
  NaN out of ordinary numbers (for instance dividing a zero vector by its
  zero norm) is modelled by an `Option ℝ` result, `none` standing for NaN.
* A Python statement that raises is modelled by returning the pair of the
  state as mutated so far and `some errorName`; `none` means no exception.
* `np.arctan2 y x` is the argument of the complex number `x + y*I`,
  which is exactly `Complex.arg` (range `(-π, π]`, `arg 0 = 0`).
-/

namespace HexrdGui

/-- A 2-D point (one row of a matplotlib `xy` vertex array). -/
abbrev Pt : Type := ℝ × ℝ

/-- A vertex-array row: either a finite point or a NaN sentinel row. -/
abbrev V : Type := Option Pt

/-- A matplotlib mouse event, as observed by the handlers of
`InteractiveTemplate`.  `inaxes` is the truth value of
`event.inaxes == self.shape.axes`; `contains` is the result of the external
hit test `self.shape.contains(event)` (a matplotlib primitive, an oracle
here); `xdata`/`ydata` are the data coordinates (`none` when the pointer is
outside the axes, as in matplotlib); `x`/`y` are pixel coordinates, always
present. -/
structure Event where
  inaxes : Bool
  contains : Bool
  xdata : Option ℝ
  ydata : Option ℝ
  x : ℝ
  y : ℝ

/-- The mutable state of an `InteractiveTemplate` instance:
`shape` is `self.shape.xy`, `press` is `self.press`
(`(snapshot, event.xdata, event.ydata)` or `None`), `center` is
`self.center`, `total_rotation` is `self.total_rotation`.  `img` together
with `imgRows`/`imgCols` is `self.img` (indices outside
`[0, imgRows) × [0, imgCols)` are irrelevant), and `extent` is the 4-tuple
returned by `self.ax.get_extent()`. -/
structure TState where
  shape : List V
  press : Option (List V × Option ℝ × Option ℝ)
  center : Pt
  total_rotation : ℝ
  img : ℤ → ℤ → ℝ
  imgRows : ℤ
  imgCols : ℤ
  extent : ℝ × ℝ × ℝ × ℝ

/-- `np.nanmin` over a list of (non-NaN) floats.  numpy warns and yields
NaN on an empty slice; that case is never reached by any theorem below and
is mapped to `0`. -/
noncomputable def nanmin (l : List ℝ) : ℝ :=
  match l with
  | [] => 0
  | a :: r => r.foldl min a

/-- `np.nanmax` over a list of (non-NaN) floats; `0` on the unreached
empty case. -/
noncomputable def nanmax (l : List ℝ) : ℝ :=
  match l with
  | [] => 0
  | a :: r => r.foldl max a

/-- `InteractiveTemplate.get_midpoint`:
`x0, y0 = np.nanmin(self.shape.xy, axis=0)`,
`x1, y1 = np.nanmax(self.shape.xy, axis=0)`,
`return [(x1+x0)/2, (y1+y0)/2]`.  The NaN sentinel rows are skipped by the
nan-aware reductions, i.e. only the `some` vertices participate. -/
noncomputable def get_midpoint (shape : List V) : Pt :=
  let pts := shape.filterMap id
  let xs := pts.map Prod.fst
  let ys := pts.map Prod.snd
  ((nanmax xs + nanmin xs) / 2, (nanmax ys + nanmin ys) / 2)

/-- One row of `np.dot(points - self.center, np.array([x, y])) + self.center`
in `InteractiveTemplate.rotate_template`, where
`x = [cos angle, sin angle]` and `y = [-sin angle, cos angle]`:
the row vector `p - c` is multiplied by the matrix whose rows are `x`, `y`,
then `c` is added back. -/
noncomputable def rotPoint (c : Pt) (angle : ℝ) (p : Pt) : Pt :=
  ((p.1 - c.1) * Real.cos angle + (p.2 - c.2) * (-Real.sin angle) + c.1,
   (p.1 - c.1) * Real.sin angle + (p.2 - c.2) * Real.cos angle + c.2)

/-- `InteractiveTemplate.rotate_template` acting on a vertex array:
every finite row is rotated about `c`; a NaN sentinel row stays NaN
(NaN propagates through the matrix multiply). -/
noncomputable def rotate_template (c : Pt) (angle : ℝ) (points : List V) :
    List V :=
  points.map (Option.map (rotPoint c angle))

/-- `xy + np.array([dx, dy])` on a vertex array: broadcast translation,
NaN rows preserved. -/
noncomputable def translate_xy (xy : List V) (dx dy : ℝ) : List V :=
  xy.map (Option.map (fun p => (p.1 + dx, p.2 + dy)))

/-- `InteractiveTemplate.on_press_translate`: outside the shape's axes or
failing the hit test the handler returns without touching any state;
otherwise it records `(self.shape.xy, event.xdata, event.ydata)` in
`self.press`. -/
noncomputable def on_press_translate (s : TState) (e : Event) : TState :=
  if !e.inaxes then s
  else if !e.contains then s
  else { s with press := some (s.shape, e.xdata, e.ydata) }

/-- `InteractiveTemplate.on_translate`: no-op when no press is recorded or
the event is outside the shape's axes; otherwise recompute `self.center`
from the current shape and set the shape to the pressed snapshot displaced
by `(event.xdata - xpress, event.ydata - ypress)`.  Subtracting `None`
would raise `TypeError`; that branch is unreachable through the guards but
is modelled faithfully. -/
noncomputable def on_translate (s : TState) (e : Event) :
    TState × Option String :=
  match s.press with
  | none => (s, none)
  | some (xy, xpress, ypress) =>
    if !e.inaxes then (s, none)
    else
      match e.xdata, xpress, e.ydata, ypress with
      | some ex, some px, some ey, some py =>
        ({ s with center := get_midpoint s.shape,
                  shape := translate_xy xy (ex - px) (ey - py) }, none)
      | _, _, _, _ => (s, some "TypeError")

/-- `InteractiveTemplate.on_release`: no-op when no press is recorded.
Unlike `on_translate`, the source has NO `event.inaxes` guard here, so with
an active press and a pointer outside the axes `event.xdata is None` and
`event.xdata - xpress` raises `TypeError` before any state is mutated
(`self.press` is not even cleared). -/
noncomputable def on_release (s : TState) (e : Event) :
    TState × Option String :=
  match s.press with
  | none => (s, none)
  | some (xy, xpress, ypress) =>
    match e.xdata, xpress, e.ydata, ypress with
    | some ex, some px, some ey, some py =>
      ({ s with shape := translate_xy xy (ex - px) (ey - py),
                press := none }, none)
    | _, _, _, _ => (s, some "TypeError")

/-- `InteractiveTemplate.on_press_rotate`: same guards as the translate
press; on acceptance it recomputes `self.center` from the current shape
(`self.shape.set_transform(...)` is pure rendering and has no geometric
state here) and records the press tuple. -/
noncomputable def on_press_rotate (s : TState) (e : Event) : TState :=
  if !e.inaxes then s
  else if !e.contains then s
  else { s with center := get_midpoint s.shape,
                press := some (s.shape, e.xdata, e.ydata) }

/-- `InteractiveTemplate.mouse_position`: when a data coordinate of the
event is `None` (pointer outside the axes) it is replaced by `0` or by the
corresponding extent bound, depending on which side of the midpoint the
raw pixel coordinate falls. -/
noncomputable def mouse_position (s : TState) (e : Event) : Pt :=
  let xmax := s.extent.2.1
  let ymax := s.extent.2.2.2
  let m := get_midpoint s.shape
  let xdata := match e.xdata with
    | some v => v
    | none => if e.x < m.1 then 0 else xmax
  let ydata := match e.ydata with
    | some v => v
    | none => if e.y < m.2 then 0 else ymax
  (xdata, ydata)

/-- `np.linalg.norm` of a 2-vector. -/
noncomputable def norm2 (v : Pt) : ℝ := Real.sqrt (v.1 ^ 2 + v.2 ^ 2)

/-- `v / np.linalg.norm(v)`.  The source divides with no zero guard; for
`v = 0` the float quotient is `[nan, nan]`, modelled as `none`. -/
noncomputable def unitize (v : Pt) : Option Pt :=
  if v = (0, 0) then none else some (v.1 / norm2 v, v.2 / norm2 v)

/-- `np.arctan2 y x`, i.e. the argument of `x + y*I` in `(-π, π]`. -/
noncomputable def arctan2 (y x : ℝ) : ℝ := Complex.arg (Complex.mk x y)

/-- `InteractiveTemplate.get_angle`: vectors from `self.center` to the
pressed position and to `mouse_position(event)` are normalised to unit
length and the signed angle `arctan2(det [v0_u, v1_u], v0_u · v1_u)` is
returned.  `none` models an NaN result (zero-norm division) or unpacking a
`None` press (a `TypeError`, unreachable through the callers' guards). -/
noncomputable def get_angle (s : TState) (e : Event) : Option ℝ :=
  match s.press with
  | none => none
  | some (_, xdata?, ydata?) =>
    match xdata?, ydata? with
    | some xdata, some ydata =>
      let c := s.center
      let mp := mouse_position s e
      let v0 : Pt := (xdata - c.1, ydata - c.2)
      let v1 : Pt := (mp.1 - c.1, mp.2 - c.2)
      match unitize v0, unitize v1 with
      | some u0, some u1 =>
        some (arctan2 (u0.1 * u1.2 - u1.1 * u0.2) (u0.1 * u1.1 + u0.2 * u1.2))
      | _, _ => none
    | _, _ => none

/-- `InteractiveTemplate.on_rotate`: no-op when no press is recorded;
otherwise rotate the pressed snapshot by `get_angle(event)` about
`self.center`.  `none` is returned when the angle is NaN: the real code
would then rotate by NaN, poisoning every coordinate, a state that has no
finite representative here (claim C9 covers that case). -/
noncomputable def on_rotate (s : TState) (e : Event) : Option TState :=
  match s.press with
  | none => some s
  | some (xy, _, _) =>
    match get_angle s e with
    | some angle => some { s with shape := rotate_template s.center angle xy }
    | none => none

/-- `InteractiveTemplate.on_rotate_release`: no-op when no press is
recorded; otherwise the final angle is added to `self.total_rotation`, the
press is cleared, and the pressed snapshot rotated by that angle about
`self.center` becomes the shape.  As in `on_rotate`, a NaN angle is
`none`. -/
noncomputable def on_rotate_release (s : TState) (e : Event) :
    Option TState :=
  match s.press with
  | none => some s
  | some (xy, _, _) =>
    match get_angle s e with
    | some angle =>
      some { s with total_rotation := s.total_rotation + angle,
                    press := none,
                    shape := rotate_template s.center angle xy }
    | none => none

/-- One completed rotate gesture with signed angle `θ`: the composite of
an accepted `on_press_rotate` (which recomputes the center from the current
shape and snapshots it) and an `on_rotate_release` whose `get_angle`
evaluates to `θ`.  `rotate_gesture_is_press_then_release` below ties this
to the two event handlers. -/
noncomputable def gestureRotate (s : TState) (θ : ℝ) : TState :=
  let c := get_midpoint s.shape
  { s with shape := rotate_template c θ s.shape,
           center := c,
           press := none,
           total_rotation := s.total_rotation + θ }

/-- Folding a sequence of completed rotate gestures. -/
noncomputable def runGestures (s : TState) (θs : List ℝ) : TState :=
  θs.foldl gestureRotate s

/-- The side condition under which successive rotate gestures all pivot
about the same point: each gesture's rotation leaves the bounding-box
midpoint of the shape where it was.  (The first gesture recomputes its
center from the un-rotated shape, so only the later gestures are
constrained.) -/
noncomputable def MidpointFixed : List V → List ℝ → Prop
  | _, [] => True
  | xs, θ :: rest =>
      get_midpoint (rotate_template (get_midpoint xs) θ xs) = get_midpoint xs
        ∧ MidpointFixed (rotate_template (get_midpoint xs) θ xs) rest

/-- Witness input for `C1_rotation_composition`: a one-point shape (a zero
rotation fixes the midpoint, so the proviso holds with gesture list
`[0]`). -/
noncomputable def wState : TState :=
  { shape := [some (2, 3)]
    press := none
    center := (0, 0)
    total_rotation := 5
    img := fun _ _ => 0
    imgRows := 0
    imgCols := 0
    extent := (0, 1, 2, 3) }

/-- The triangle `{(0,0), (0,2), (1,1)}`, whose bounding-box midpoint
moves under a rotation by `π/3`; used to refute the multi-gesture half of
claim C1. -/
noncomputable def cexState : TState :=
  { shape := [some (0, 0), some (0, 2), some (1, 1)]
    press := none
    center := (0, 0)
    total_rotation := 0
    img := fun _ _ => 0
    imgRows := 0
    imgCols := 0
    extent := (0, 0, 0, 0) }

/-- One translate-gesture event, tagged with the handler matplotlib would
dispatch it to (`button_press_event` → `on_press_translate`,
`motion_notify_event` → `on_translate`, `button_release_event` →
`on_release`). -/
inductive TEvent where
  | press : Event → TEvent
  | move : Event → TEvent
  | release : Event → TEvent

/-- Dispatch one translate-gesture event to its handler (the state the
handler leaves behind, whether or not it raised). -/
noncomputable def stepTranslate (s : TState) : TEvent → TState
  | TEvent.press e => on_press_translate s e
  | TEvent.move e => (on_translate s e).1
  | TEvent.release e => (on_release s e).1

/-- Deliver a sequence of translate-gesture events. -/
noncomputable def runTranslate (s : TState) (evs : List TEvent) : TState :=
  evs.foldl stepTranslate s

/-- A state with an active translate press (snapshot of a one-point shape,
pressed at data coordinates `(1, 1)`): the failing input for claim C2. -/
noncomputable def relState : TState :=
  { shape := [some (1, 1)]
    press := some ([some (1, 1)], some 1, some 1)
    center := (0, 0)
    total_rotation := 0
    img := fun _ _ => 0
    imgRows := 0
    imgCols := 0
    extent := (0, 2, 0, 2) }

/-- A release event whose pointer is outside the plot axes, so its data
coordinates are `None`. -/
noncomputable def relEvent : Event :=
  { inaxes := false
    contains := false
    xdata := none
    ydata := none
    x := 3
    y := 3 }

/-- `.astype(int)` on a float: truncation toward zero. -/
noncomputable def truncToInt (x : ℝ) : ℤ := if 0 ≤ x then ⌊x⌋ else ⌈x⌉

/-- `InteractiveTemplate.bounds`:
`l, r, b, t = self.ax.get_extent()`, `x0, y0 = np.nanmin(xy, axis=0)`,
`x1, y1 = np.nanmax(xy, axis=0)`, and the result is
`[max(floor y0, t), min(ceil y1, b), max(floor x0, l), min(ceil x1, r)]`
cast to int, i.e. `(top, bottom, left, right)` pixel bounds. -/
noncomputable def bounds (s : TState) : ℤ × ℤ × ℤ × ℤ :=
  let l := s.extent.1
  let r := s.extent.2.1
  let b := s.extent.2.2.1
  let t := s.extent.2.2.2
  let pts := s.shape.filterMap id
  let x0 := nanmin (pts.map Prod.fst)
  let y0 := nanmin (pts.map Prod.snd)
  let x1 := nanmax (pts.map Prod.fst)
  let y1 := nanmax (pts.map Prod.snd)
  (truncToInt (max (↑⌊y0⌋) t), truncToInt (min (↑⌈y1⌉) b),
   truncToInt (max (↑⌊x0⌋) l), truncToInt (min (↑⌈x1⌉) r))

/-- `InteractiveTemplate.cropped_image`:
`y0, y1, x0, x1 = self.bounds`; the image buffer is sliced to
`img[y0:y1, x0:x1]` and every polygon vertex is shifted by the top-left
offset `(x0, y0)` (NaN rows propagate).  Slicing is modelled for the
ordinary case of in-range, non-negative bounds (an out-of-range slice is
clamped; Python's negative-index wraparound is not modelled because a
shape inside the image never produces it). -/
noncomputable def cropped_image (s : TState) : TState :=
  let bd := bounds s
  let y0 := bd.1
  let y1 := bd.2.1
  let x0 := bd.2.2.1
  let x1 := bd.2.2.2
  { s with img := fun i j => s.img (i + y0) (j + x0)
           imgRows := max 0 (min y1 s.imgRows - max y0 0)
           imgCols := max 0 (min x1 s.imgCols - max x0 0)
           shape := s.shape.map (Option.map
             (fun p => (p.1 - (x0 : ℝ), p.2 - (y0 : ℝ)))) }

/-- Positions (from `start`) of the `none` entries of a list:
`np.where(np.isnan(col))[0]` with `start = 0`. -/
def noneIdxsFrom {α : Type} : ℕ → List (Option α) → List ℕ
  | _, [] => []
  | i, none :: rest => i :: noneIdxsFrom (i + 1) rest
  | i, some _ :: rest => noneIdxsFrom (i + 1) rest

/-- `np.where(np.isnan(col))[0]`. -/
def noneIdxs {α : Type} (l : List (Option α)) : List ℕ := noneIdxsFrom 0 l

/-- `np.split(arr, idxs)` for ascending indices: the pieces
`arr[:i₁], arr[i₁:i₂], …, arr[iₖ:]` (each later piece starts with the
split element itself). -/
def npSplit {α : Type} (l : List α) : List ℕ → List (List α)
  | [] => [l]
  | i :: rest => l.take i :: npSplit (l.drop i) (rest.map (· - i))
termination_by idxs => idxs.length
decreasing_by simp [List.length_map]

/-- `InteractiveTemplate.mask`: the `x`/`y` coordinate columns of the
vertex array are split at their NaN positions; each piece is stripped of
NaNs and handed to the external scan-fill rasterizer
`skimage.draw.polygon(r, c, shape=img.shape)` (the parameter `raster`,
with `raster r c shape i j` telling whether pixel `(i, j)` is filled); the
per-loop masks are XOR-folded into a master mask and every image pixel
outside the master mask is zeroed in place. -/
def maskImage (raster : List ℝ → List ℝ → ℤ × ℤ → ℤ → ℤ → Bool)
    (s : TState) : TState :=
  let col := s.shape.map (Option.map Prod.fst)
  let row := s.shape.map (Option.map Prod.snd)
  let cols := npSplit col (noneIdxs col)
  let rows := npSplit row (noneIdxs row)
  let loops := cols.zip rows
  let master : ℤ → ℤ → Bool := loops.foldl
    (fun m cr i j =>
      xor (m i j)
        (raster (cr.2.filterMap id) (cr.1.filterMap id)
          (s.imgRows, s.imgCols) i j))
    (fun _ _ => false)
  { s with img := fun i j => if master i j then s.img i j else 0 }

/-- Witness input for the `get_angle` theorems: a state with an active
rotate press at data coordinates `(1, 0)` and center `(0, 0)`. -/
noncomputable def angState : TState :=
  { shape := []
    press := some ([], some 1, some 0)
    center := (0, 0)
    total_rotation := 0
    img := fun _ _ => 0
    imgRows := 0
    imgCols := 0
    extent := (0, 9, 0, 9) }

namespace MaskDialog

/-- A mask payload: a numpy data array, flattened to its entries. -/
abbrev Payload : Type := List ℤ

/-- A stored mask value `(tag, data)`: the tag is the origin type
(`'polar'`, `'threshold'`) or a detector name for raw masks. -/
abbrev Entry : Type := String × Payload

/-- Python `d[k]` / `d.get(k)` on an insertion-ordered dict. -/
def dlookup {α : Type} (k : String) : List (String × α) → Option α
  | [] => none
  | (k', v) :: r => if k' = k then some v else dlookup k r

/-- Python `d.pop(k)`'s effect on the mapping (keys are unique in a dict,
so removing the one binding of `k`). -/
def dremove {α : Type} (k : String) : List (String × α) → List (String × α)
  | [] => []
  | (k', v) :: r => if k' = k then r else (k', v) :: dremove k r

/-- Python `d[k] = v`: update in place when the key exists, else append
(insertion order preserved). -/
def dset {α : Type} (k : String) (v : α) :
    List (String × α) → List (String × α)
  | [] => [(k, v)]
  | (k', v') :: r => if k' = k then (k, v) :: r else (k', v') :: dset k v r

/-- The state touched by `MaskManagerDialog.update_mask_name`:
`masks` is `self.masks`; `visible_masks`, the four side stores
(`polar_masks_line_data`, `polar_masks`, `raw_masks_line_data`,
`raw_masks`) live on `HexrdConfig()`; `displayed` is the text of the
edited name cell after the handler returns; `old_name` is
`self.old_name` (`none` also covers the attribute not existing yet). -/
structure RState where
  masks : List (String × Entry)
  visible_masks : List String
  polar_masks_line_data : List (String × Payload)
  polar_masks : List (String × Payload)
  raw_masks_line_data : List (String × Entry)
  raw_masks : List (String × Entry)
  displayed : String
  old_name : Option String

/-- Lines 198–207 of `update_mask_name`: re-key `old` in
`HexrdConfig().polar_masks` and `HexrdConfig().raw_masks` when present;
then line 205 evaluates `self.old_name in self.visible` — but the
attribute `visible` is never assigned anywhere in `MaskManagerDialog`
(every other method uses `HexrdConfig().visible_masks`), so the access
raises `AttributeError`, keeping all mutations made so far and leaving
the visibility list untouched. -/
def rename_tail (R : RState) (new_name : String) (old : String) :
    RState × Option String :=
  let R3 := match dlookup old R.polar_masks with
    | some v =>
      { R with polar_masks := dset new_name v (dremove old R.polar_masks) }
    | none => R
  let R4 := match dlookup old R3.raw_masks with
    | some v =>
      { R3 with raw_masks := dset new_name v (dremove old R3.raw_masks) }
    | none => R3
  (R4, some "AttributeError")

/-- `MaskManagerDialog.update_mask_name` (the `cellChanged` commit of a
two-phase rename), with `new_name` the edited cell text.  Returns the
state as mutated when the handler returns or raises, and the Python
exception if one was raised.  Paths: missing/cleared `old_name` → no-op;
`old_name == new_name` → clear `old_name` only; `new_name` already a key
of `masks` → revert the displayed text to `old_name` and return early
(without clearing `old_name`); otherwise re-key `masks`, move the
type-specific line-data entry into the corresponding masks store under
`new_name`, re-key `old` in the `polar_masks`/`raw_masks` stores, and
then raise `AttributeError` at `self.visible` (see `rename_tail`). -/
def update_mask_name (R : RState) (new_name : String) :
    RState × Option String :=
  match R.old_name with
  | none => ({ R with displayed := new_name }, none)
  | some old =>
    if old = new_name then
      ({ R with displayed := new_name, old_name := none }, none)
    else if (dlookup new_name R.masks).isSome then
      ({ R with displayed := old }, none)
    else
      match dlookup old R.masks with
      | none => ({ R with displayed := new_name }, some "KeyError")
      | some entry =>
        let R1 := { R with
          masks := dset new_name entry (dremove old R.masks),
          displayed := new_name }
        if entry.1 = "polar" then
          match dlookup old R1.polar_masks_line_data with
          | none => (R1, some "KeyError")
          | some v =>
            rename_tail
              { R1 with
                polar_masks_line_data :=
                  dremove old R1.polar_masks_line_data,
                polar_masks := dset new_name v R1.polar_masks }
              new_name old
        else if entry.1 = "threshold" then
          rename_tail R1 new_name old
        else
          match dlookup old R1.raw_masks_line_data with
          | none => (R1, some "KeyError")
          | some v =>
            rename_tail
              { R1 with
                raw_masks_line_data :=
                  dremove old R1.raw_masks_line_data,
                raw_masks := dset new_name v R1.raw_masks }
              new_name old

/-- Python `'tag' == number`: comparing a string with a number is always
`False` (no exception, no coercion). -/
def py_str_eq_int (_tag : String) (_n : ℤ) : Bool := false

/-- `np.array_equal(m, val)` as called on line 45 of
`create_masks_list`, where `m` is a stored `(tag, data)` TUPLE and `val`
is the bare data array: `np.asarray(m)` is a length-2 object array
`[tag, data]`, so the shapes match only when `len(val) == 2`, and even
then the elementwise comparison starts with `tag == val[0]`, a
string-versus-number comparison that is always `False`.  The test
therefore never succeeds. -/
def np_array_equal_entry_payload (m : Entry) (val : Payload) : Bool :=
  decide (val.length = 2) && py_str_eq_int m.1 val.headI

/-- `MaskManagerDialog.create_masks_list`: rebuild `self.masks` from the
configured line data.  Polar entries are stored as `('polar', val)` and
admitted when `not any(np.array_equal(m, val) for m in masks.values())` —
note the comparison is against the stored tuple `m`, not its payload (see
`np_array_equal_entry_payload`).  Raw entries are stored as the raw
`(det, val)` value with the analogous tuple-against-tuple comparison,
whose numpy behaviour on mixed object arrays is fragile and
version-dependent; it is the parameter `rawEq`.  A threshold mask is
appended when active, and every key becomes visible.  Returns
`(masks, visible_masks, threshold_flag)`. -/
def create_masks_list
    (rawEq : Entry → Entry → Bool)
    (polar_data : List (String × Payload))
    (raw_data : List (String × Entry))
    (threshold_status : Bool) (threshold_mask : Payload) :
    List (String × Entry) × List String × Bool :=
  let m1 := polar_data.foldl
    (fun masks kv =>
      if masks.any (fun m => np_array_equal_entry_payload m.2 kv.2) then masks
      else dset kv.1 ("polar", kv.2) masks) []
  let m2 := raw_data.foldl
    (fun masks kv =>
      if masks.any (fun m => rawEq m.2 kv.2) then masks
      else dset kv.1 kv.2 masks) m1
  let m3 := if threshold_status then
      dset "threshold" ("threshold", threshold_mask) m2
    else m2
  (m3, m3.map Prod.fst, threshold_status)

/-- Failing input for claim C5 (successful-rename path): `old_name = "a"`
is a polar mask, visible in first position, and the new name `"c"` is
fresh. -/
def R5 : RState :=
  { masks := [("a", ("polar", [1]))]
    visible_masks := ["a", "b"]
    polar_masks_line_data := [("a", [1])]
    polar_masks := []
    raw_masks_line_data := []
    raw_masks := []
    displayed := "a"
    old_name := some "a" }

/-- Witness input for the C4 (rename-collision) theorem. -/
def R4w : RState :=
  { masks := [("a", ("polar", [1])), ("b", ("raw", [2]))]
    visible_masks := ["a"]
    polar_masks_line_data := [("a", [1])]
    polar_masks := []
    raw_masks_line_data := [("b", ("raw", [2]))]
    raw_masks := []
    displayed := "b"
    old_name := some "a" }

/-- Witness input for the amended C5 theorem. -/
def R5w : RState :=
  { masks := [("m", ("polar", [2]))]
    visible_masks := ["m"]
    polar_masks_line_data := [("m", [2])]
    polar_masks := []
    raw_masks_line_data := []
    raw_masks := []
    displayed := "m"
    old_name := some "m" }

end MaskDialog

theorem rotate_gesture_is_press_then_release
    (s : TState) (e₁ e₂ : Event) (θ : ℝ)
    (h₁ : e₁.inaxes = true) (h₂ : e₁.contains = true)
    (hθ : get_angle (on_press_rotate s e₁) e₂ = some θ) :
    on_rotate_release (on_press_rotate s e₁) e₂ = some (gestureRotate s θ) := by
  simp only [on_press_rotate, h₁, h₂, Bool.not_true, Bool.false_eq_true,
    if_false] at hθ ⊢
  simp only [on_rotate_release, hθ, gestureRotate]

theorem rotPoint_zero (c p : Pt) : rotPoint c 0 p = p := by
  simp [rotPoint]

theorem rotate_template_zero (c : Pt) (xs : List V) :
    rotate_template c 0 xs = xs := by
  have h : ∀ v : V, Option.map (rotPoint c 0) v = v := by
    intro v; cases v <;> simp [rotPoint_zero]
  rw [rotate_template, funext h, List.map_id']

theorem rotPoint_rotPoint (c : Pt) (a b : ℝ) (p : Pt) :
    rotPoint c b (rotPoint c a p) = rotPoint c (a + b) p := by
  simp only [rotPoint, Real.cos_add, Real.sin_add, Prod.mk.injEq]
  constructor <;> ring

theorem rotate_template_rotate_template (c : Pt) (a b : ℝ) (xs : List V) :
    rotate_template c b (rotate_template c a xs) =
      rotate_template c (a + b) xs := by
  simp only [rotate_template, List.map_map]
  refine List.map_congr_left fun v _ => ?_
  cases v <;> simp [rotPoint_rotPoint]

/-- **C1 (amended)** — For any sequence of completed rotate gestures with
signed angles `θ₁, …, θₙ`, the accumulated `total_rotation` grows by
exactly `θ₁ + ⋯ + θₙ` with no wrapping; and PROVIDED every gesture's
rotation leaves the bounding-box midpoint of the shape unchanged (so that
all the per-gesture recomputed centers coincide), the final polygon equals
applying `rotate_template` once with the total angle, about that common
center, to the original pre-rotation polygon.  (Without the proviso the
polygon part is false: the center is recomputed from the bounding box at
each press, and rotation moves the bounding-box midpoint in general; see
`C1_counterexample`.) -/
theorem C1_rotation_composition (s : TState) (θs : List ℝ)
    (h : MidpointFixed s.shape θs) :
    (runGestures s θs).total_rotation = s.total_rotation + θs.sum ∧
    (runGestures s θs).shape =
      rotate_template (get_midpoint s.shape) θs.sum s.shape := by
  induction θs generalizing s with
  | nil =>
    simp [runGestures, rotate_template_zero]
  | cons θ rest ih =>
    obtain ⟨hmid, hrest⟩ := h
    have hstep : runGestures s (θ :: rest) =
        runGestures (gestureRotate s θ) rest := rfl
    have hshape : (gestureRotate s θ).shape =
        rotate_template (get_midpoint s.shape) θ s.shape := rfl
    have ihs := ih (gestureRotate s θ) (by rw [hshape]; exact hrest)
    constructor
    · rw [hstep, ihs.1]
      show s.total_rotation + θ + rest.sum = _
      rw [List.sum_cons, add_assoc]
    · rw [hstep, ihs.2, hshape, hmid,
        rotate_template_rotate_template, List.sum_cons]

theorem C1_rotation_composition_witness :
    (runGestures wState [0]).total_rotation =
        wState.total_rotation + ([0] : List ℝ).sum ∧
    (runGestures wState [0]).shape =
      rotate_template (get_midpoint wState.shape) ([0] : List ℝ).sum
        wState.shape :=
  C1_rotation_composition wState [0]
    ⟨by rw [rotate_template_zero], trivial⟩

theorem one_lt_sqrt_three : (1 : ℝ) < Real.sqrt 3 := by
  rw [show (1 : ℝ) = Real.sqrt 1 by simp]
  exact Real.sqrt_lt_sqrt (by norm_num) (by norm_num)

theorem mid0_eval : get_midpoint cexState.shape = (1 / 2, 1) := by
  show get_midpoint [some (0, 0), some (0, 2), some (1, 1)] = (1 / 2, 1)
  simp only [get_midpoint, List.filterMap_cons, List.filterMap_nil, id_eq,
    List.map_cons, List.map_nil, nanmax, nanmin, List.foldl_cons,
    List.foldl_nil]
  norm_num

theorem shape1_eval :
    rotate_template (1 / 2, 1) (Real.pi / 3) cexState.shape =
      [some (1 / 4 + Real.sqrt 3 / 2, 1 / 2 - Real.sqrt 3 / 4),
       some (1 / 4 - Real.sqrt 3 / 2, 3 / 2 - Real.sqrt 3 / 4),
       some (3 / 4, 1 + Real.sqrt 3 / 4)] := by
  show rotate_template (1 / 2, 1) (Real.pi / 3)
      [some (0, 0), some (0, 2), some (1, 1)] = _
  simp only [rotate_template, List.map_cons, List.map_nil, Option.map_some',
    rotPoint, Real.cos_pi_div_three, Real.sin_pi_div_three,
    List.cons.injEq, Option.some.injEq, Prod.mk.injEq, and_true]
  refine ⟨⟨by ring, by ring⟩, ⟨by ring, by ring⟩, by ring, by ring⟩

theorem mid1_eval :
    get_midpoint
      [some (1 / 4 + Real.sqrt 3 / 2, 1 / 2 - Real.sqrt 3 / 4),
       some (1 / 4 - Real.sqrt 3 / 2, 3 / 2 - Real.sqrt 3 / 4),
       some (3 / 4, 1 + Real.sqrt 3 / 4)] = (1 / 4, 3 / 4) := by
  have h1 : (1 : ℝ) < Real.sqrt 3 := one_lt_sqrt_three
  simp only [get_midpoint, List.filterMap_cons, List.filterMap_nil, id_eq,
    List.map_cons, List.map_nil, nanmax, nanmin, List.foldl_cons,
    List.foldl_nil]
  rw [max_eq_left
        (show (1:ℝ)/4 - Real.sqrt 3/2 ≤ 1/4 + Real.sqrt 3/2 by linarith),
      max_eq_left (show (3:ℝ)/4 ≤ 1/4 + Real.sqrt 3/2 by linarith),
      min_eq_right
        (show (1:ℝ)/4 - Real.sqrt 3/2 ≤ 1/4 + Real.sqrt 3/2 by linarith),
      min_eq_left (show (1:ℝ)/4 - Real.sqrt 3/2 ≤ 3/4 by linarith),
      max_eq_right
        (show (1:ℝ)/2 - Real.sqrt 3/4 ≤ 3/2 - Real.sqrt 3/4 by linarith),
      max_eq_right
        (show (3:ℝ)/2 - Real.sqrt 3/4 ≤ 1 + Real.sqrt 3/4 by linarith),
      min_eq_left
        (show (1:ℝ)/2 - Real.sqrt 3/4 ≤ 3/2 - Real.sqrt 3/4 by linarith),
      min_eq_left
        (show (1:ℝ)/2 - Real.sqrt 3/4 ≤ 1 + Real.sqrt 3/4 by linarith),
      Prod.mk.injEq]
  constructor <;> ring

/-- **C1 (counterexample)** — Two completed rotate gestures with angles
`π/3` and `-π/3` on the triangle `{(0,0),(0,2),(1,1)}`: the accumulated
total is `π/3 + (-π/3) = 0`, but the final polygon is NOT
`rotate_template` applied once with that total to the original polygon
(which would be the original polygon itself): the first rotation moves the
bounding-box midpoint from `(1/2, 1)` to `(1/4, 3/4)`, so the second
gesture pivots about a different center and the composite is a nonzero
translation. -/
theorem C1_counterexample :
    (runGestures cexState [Real.pi / 3, -(Real.pi / 3)]).total_rotation =
        Real.pi / 3 + -(Real.pi / 3) ∧
    (runGestures cexState [Real.pi / 3, -(Real.pi / 3)]).shape ≠
      rotate_template (get_midpoint cexState.shape)
        (Real.pi / 3 + -(Real.pi / 3)) cexState.shape := by
  have h1 : (1 : ℝ) < Real.sqrt 3 := one_lt_sqrt_three
  have hrun : runGestures cexState [Real.pi / 3, -(Real.pi / 3)] =
      gestureRotate (gestureRotate cexState (Real.pi / 3))
        (-(Real.pi / 3)) := rfl
  have s1 : (gestureRotate cexState (Real.pi / 3)).shape =
      [some (1 / 4 + Real.sqrt 3 / 2, 1 / 2 - Real.sqrt 3 / 4),
       some (1 / 4 - Real.sqrt 3 / 2, 3 / 2 - Real.sqrt 3 / 4),
       some (3 / 4, 1 + Real.sqrt 3 / 4)] := by
    show rotate_template (get_midpoint cexState.shape) (Real.pi / 3)
        cexState.shape = _
    rw [mid0_eval, shape1_eval]
  constructor
  · show cexState.total_rotation + Real.pi / 3 + -(Real.pi / 3) = _
    show (0 : ℝ) + Real.pi / 3 + -(Real.pi / 3) = _
    ring
  · rw [hrun]
    have s2 : (gestureRotate (gestureRotate cexState (Real.pi / 3))
        (-(Real.pi / 3))).shape =
        rotate_template (1 / 4, 3 / 4) (-(Real.pi / 3))
          [some (1 / 4 + Real.sqrt 3 / 2, 1 / 2 - Real.sqrt 3 / 4),
           some (1 / 4 - Real.sqrt 3 / 2, 3 / 2 - Real.sqrt 3 / 4),
           some (3 / 4, 1 + Real.sqrt 3 / 4)] := by
      show rotate_template
          (get_midpoint (gestureRotate cexState (Real.pi / 3)).shape)
          (-(Real.pi / 3)) (gestureRotate cexState (Real.pi / 3)).shape = _
      rw [s1, mid1_eval]
    rw [s2, mid0_eval, show Real.pi / 3 + -(Real.pi / 3) = 0 by ring,
      rotate_template_zero]
    intro h
    have hhead := congrArg List.head? h
    simp only [cexState, rotate_template, List.map_cons, Option.map_some',
      List.head?_cons, Option.some.injEq] at hhead
    have hx := congrArg Prod.fst hhead
    simp only [rotPoint, Real.cos_neg, Real.sin_neg,
      Real.cos_pi_div_three, Real.sin_pi_div_three] at hx
    have hsq : Real.sqrt 3 ^ 2 = 3 := Real.sq_sqrt (by norm_num)
    show False
    nlinarith [hx, hsq, h1]

/-- **C2 (code-bug evaluation)** — The claim says every gesture handler is
a silent no-op when the event falls outside the valid axes; in particular
a release outside the plot axes must leave the polygon unchanged and raise
no error.  `on_translate` and the two press handlers do guard
`event.inaxes`, but `on_release` does not: with an active press
(`relState`) and a release whose pointer is outside the axes
(`relEvent`, `xdata is None`), the source evaluates
`event.xdata - xpress` and raises `TypeError`.  The exception fires before
any mutation, so the state (including the still-set press) is left as it
was. -/
theorem C2_on_release_outside_axes_raises :
    (on_release relState relEvent).2 = some "TypeError" ∧
    (on_release relState relEvent).1 = relState :=
  ⟨rfl, rfl⟩

theorem on_press_translate_total (s : TState) (e : Event) :
    (on_press_translate s e).total_rotation = s.total_rotation := by
  unfold on_press_translate
  split
  · rfl
  · split <;> rfl

theorem on_translate_total (s : TState) (e : Event) :
    ((on_translate s e).1).total_rotation = s.total_rotation := by
  cases hp : s.press with
  | none => simp [on_translate, hp]
  | some p =>
    obtain ⟨xy, xp, yp⟩ := p
    simp only [on_translate, hp]
    split
    · rfl
    · split <;> rfl

theorem on_release_total (s : TState) (e : Event) :
    ((on_release s e).1).total_rotation = s.total_rotation := by
  cases hp : s.press with
  | none => simp [on_release, hp]
  | some p =>
    obtain ⟨xy, xp, yp⟩ := p
    simp only [on_release, hp]
    split <;> rfl

theorem stepTranslate_total (s : TState) (ev : TEvent) :
    (stepTranslate s ev).total_rotation = s.total_rotation := by
  cases ev with
  | press e => exact on_press_translate_total s e
  | move e => exact on_translate_total s e
  | release e => exact on_release_total s e

/-- **C10** — Translate gestures never change the accumulated rotation:
delivering any sequence of `on_press_translate` / `on_translate` /
`on_release` events leaves `total_rotation` exactly as it was (only the
rotate-release handler ever modifies it). -/
theorem C10_translate_preserves_total_rotation
    (s : TState) (evs : List TEvent) :
    (runTranslate s evs).total_rotation = s.total_rotation := by
  induction evs generalizing s with
  | nil => rfl
  | cons ev rest ih =>
    show (runTranslate (stepTranslate s ev) rest).total_rotation = _
    rw [ih, stepTranslate_total]

theorem map_sub_add (xs : List V) (a b : ℝ) :
    (xs.map (Option.map (fun p : Pt => (p.1 - a, p.2 - b)))).map
      (Option.map (fun p : Pt => (p.1 + a, p.2 + b))) = xs := by
  rw [List.map_map]
  have h : ∀ v : V,
      (Option.map (fun p : Pt => (p.1 + a, p.2 + b)) ∘
        Option.map (fun p : Pt => (p.1 - a, p.2 - b))) v = v := by
    intro v
    cases v <;> simp
  rw [funext h, List.map_id']

/-- **C8** — `cropped_image` slices the image buffer to the integer crop
bounds and shifts every polygon vertex by the bounds' top-left offset
`(x0, y0)`; re-adding that offset to every vertex reproduces the pre-crop
polygon exactly (NaN sentinel rows included). -/
theorem C8_crop_offset_roundtrip (s : TState) :
    ((cropped_image s).shape).map
      (Option.map (fun p : Pt =>
        (p.1 + (((bounds s).2.2.1 : ℤ) : ℝ),
         p.2 + (((bounds s).1 : ℤ) : ℝ)))) = s.shape :=
  map_sub_add s.shape _ _

theorem noneIdxsFrom_append_some {α : Type} (xs : List α)
    (l : List (Option α)) (i : ℕ) :
    noneIdxsFrom i (xs.map some ++ l) = noneIdxsFrom (i + xs.length) l := by
  induction xs generalizing i with
  | nil => simp
  | cons a r ih =>
    show noneIdxsFrom (i + 1) (r.map some ++ l) = _
    rw [ih]
    congr 1
    simp
    omega

theorem noneIdxsFrom_map_some {α : Type} (xs : List α) (i : ℕ) :
    noneIdxsFrom i (xs.map some) = [] := by
  induction xs generalizing i with
  | nil => rfl
  | cons a r ih => exact ih (i + 1)

theorem noneIdxs_double {α : Type} (A : List α) :
    noneIdxs (A.map some ++ none :: A.map some) = [A.length] := by
  unfold noneIdxs
  rw [noneIdxsFrom_append_some, Nat.zero_add]
  show A.length :: noneIdxsFrom (A.length + 1) (A.map some) = _
  rw [noneIdxsFrom_map_some]

theorem npSplit_double {α : Type} (A : List α) :
    npSplit (A.map some ++ none :: A.map some) [A.length] =
      [A.map some, none :: A.map some] := by
  have hl : A.length = (A.map some).length := (List.length_map A some).symm
  simp only [npSplit, List.map_nil]
  rw [hl, List.take_left, List.drop_left]

theorem filterMap_id_map_some {α : Type} (A : List α) :
    (A.map some).filterMap id = A := by
  rw [List.filterMap_map]
  exact List.filterMap_some A

/-- **C3** — `mask` on a polygon whose vertex array consists of two
identical sub-loops separated by a NaN sentinel row: the two loops
rasterize (by any rasterizer) to the same pixel set, the XOR fold cancels
them to an all-false composite, and the in-place update therefore zeroes
every pixel of the image buffer. -/
theorem C3_duplicate_loops_zero_image
    (raster : List ℝ → List ℝ → ℤ × ℤ → ℤ → ℤ → Bool)
    (L : List Pt) (press : Option (List V × Option ℝ × Option ℝ))
    (c : Pt) (tot : ℝ) (img : ℤ → ℤ → ℝ) (nr nc : ℤ)
    (ext : ℝ × ℝ × ℝ × ℝ) (i j : ℤ) :
    (maskImage raster
      { shape := L.map some ++ none :: L.map some
        press := press, center := c, total_rotation := tot
        img := img, imgRows := nr, imgCols := nc, extent := ext }).img i j
      = 0 := by
  have key : ∀ f : Pt → ℝ,
      (L.map some ++ none :: L.map some).map (Option.map f)
        = ((L.map f).map some) ++ none :: ((L.map f).map some) := by
    intro f
    simp [List.map_map]
  simp only [maskImage, key]
  rw [noneIdxs_double, noneIdxs_double, npSplit_double, npSplit_double]
  simp only [List.zip_cons_cons, List.zip_nil_right, List.foldl_cons,
    List.foldl_nil, filterMap_id_map_some, List.filterMap_cons]
  simp [filterMap_id_map_some]

theorem mouse_position_some (s : TState) (e : Event) (a b : ℝ)
    (hx : e.xdata = some a) (hy : e.ydata = some b) :
    mouse_position s e = (a, b) := by
  unfold mouse_position
  rw [hx, hy]

theorem pt_sub_eq_zero_iff (a b : ℝ) (c : Pt) :
    ((a - c.1, b - c.2) : Pt) = (0, 0) ↔ ((a, b) : Pt) = c := by
  simp [Prod.ext_iff, sub_eq_zero]

theorem norm2_pos (a b : ℝ) (h : ((a, b) : Pt) ≠ (0, 0)) :
    0 < norm2 (a, b) := by
  have h' : a ≠ 0 ∨ b ≠ 0 := by
    by_contra hc
    push_neg at hc
    exact h (by simp [Prod.ext_iff, hc.1, hc.2])
  unfold norm2
  apply Real.sqrt_pos.2
  rcases h' with h1 | h2
  · have ha : 0 < a ^ 2 := by positivity
    nlinarith [sq_nonneg b]
  · have hb : 0 < b ^ 2 := by positivity
    nlinarith [sq_nonneg a]

theorem norm2_sq (a b : ℝ) : norm2 (a, b) ^ 2 = a ^ 2 + b ^ 2 :=
  Real.sq_sqrt (by positivity)

theorem unit_dot_self (a b : ℝ) (h : ((a, b) : Pt) ≠ (0, 0)) :
    a / norm2 (a, b) * (a / norm2 (a, b)) +
      b / norm2 (a, b) * (b / norm2 (a, b)) = 1 := by
  have hn := norm2_pos a b h
  have hs := norm2_sq a b
  have hne : norm2 (a, b) ≠ 0 := ne_of_gt hn
  field_simp
  nlinarith [hs]

theorem unitize_of_ne (v : Pt) (h : v ≠ (0, 0)) :
    unitize v = some (v.1 / norm2 v, v.2 / norm2 v) := by
  rw [unitize, if_neg h]

theorem arctan2_zero_one : arctan2 0 1 = 0 := by
  unfold arctan2
  rw [show Complex.mk 1 0 = (1 : ℂ) from by apply Complex.ext <;> simp]
  exact Complex.arg_one

theorem arctan2_zero_neg_one : arctan2 0 (-1) = Real.pi := by
  unfold arctan2
  rw [show Complex.mk (-1) 0 = (-1 : ℂ) from by apply Complex.ext <;> simp]
  exact Complex.arg_neg_one

theorem get_angle_formula (s : TState) (xy : List V) (px py a b : ℝ)
    (hp : s.press = some (xy, some px, some py))
    (e : Event) (hx : e.xdata = some a) (hy : e.ydata = some b)
    (hv0 : ((px - s.center.1, py - s.center.2) : Pt) ≠ (0, 0))
    (hv1 : ((a - s.center.1, b - s.center.2) : Pt) ≠ (0, 0)) :
    get_angle s e = some (arctan2
      ((px - s.center.1) / norm2 (px - s.center.1, py - s.center.2) *
          ((b - s.center.2) / norm2 (a - s.center.1, b - s.center.2)) -
        (a - s.center.1) / norm2 (a - s.center.1, b - s.center.2) *
          ((py - s.center.2) / norm2 (px - s.center.1, py - s.center.2)))
      ((px - s.center.1) / norm2 (px - s.center.1, py - s.center.2) *
          ((a - s.center.1) / norm2 (a - s.center.1, b - s.center.2)) +
        (py - s.center.2) / norm2 (px - s.center.1, py - s.center.2) *
          ((b - s.center.2) / norm2 (a - s.center.1, b - s.center.2)))) := by
  simp only [get_angle, hp, mouse_position_some s e a b hx hy,
    unitize_of_ne _ hv0, unitize_of_ne _ hv1]

/-- **C7** — `get_angle` computes
`arctan2(det [v0_u, v1_u], v0_u · v1_u)` on the unit-normalised vectors
from the center: when the current pointer position equals the pressed
anchor position the angle is `0`, and when it is the exact 180° opposite
of the anchor through the center the angle is `π` (not `-π`), because the
determinant argument is exactly `0` and `arctan2 0 (-1) = arg(-1) = π`. -/
theorem C7_get_angle_zero_and_pi (s : TState) (xy : List V) (px py : ℝ)
    (hp : s.press = some (xy, some px, some py))
    (hne : ((px, py) : Pt) ≠ s.center)
    (e₁ e₂ : Event)
    (h1x : e₁.xdata = some px) (h1y : e₁.ydata = some py)
    (h2x : e₂.xdata = some (2 * s.center.1 - px))
    (h2y : e₂.ydata = some (2 * s.center.2 - py)) :
    get_angle s e₁ = some 0 ∧ get_angle s e₂ = some Real.pi := by
  have hv0 : ((px - s.center.1, py - s.center.2) : Pt) ≠ (0, 0) :=
    fun hc => hne ((pt_sub_eq_zero_iff px py s.center).1 hc)
  have hds := unit_dot_self (px - s.center.1) (py - s.center.2) hv0
  constructor
  · rw [get_angle_formula s xy px py px py hp e₁ h1x h1y hv0 hv0]
    rw [show (px - s.center.1) / norm2 (px - s.center.1, py - s.center.2) *
          ((py - s.center.2) / norm2 (px - s.center.1, py - s.center.2)) -
        (px - s.center.1) / norm2 (px - s.center.1, py - s.center.2) *
          ((py - s.center.2) / norm2 (px - s.center.1, py - s.center.2)) =
        0 from by ring, hds, arctan2_zero_one]
  · have hv1 : ((2 * s.center.1 - px - s.center.1,
        2 * s.center.2 - py - s.center.2) : Pt) ≠ (0, 0) := by
      intro hc
      apply hv0
      have h1 := congrArg Prod.fst hc
      have h2 := congrArg Prod.snd hc
      simp only at h1 h2
      simp only [Prod.ext_iff]
      constructor <;> [linarith; linarith]
    rw [get_angle_formula s xy px py (2 * s.center.1 - px)
      (2 * s.center.2 - py) hp e₂ h2x h2y hv0 hv1]
    have hpair : ((2 * s.center.1 - px - s.center.1,
        2 * s.center.2 - py - s.center.2) : Pt) =
        (-(px - s.center.1), -(py - s.center.2)) := by
      simp only [Prod.ext_iff]
      constructor <;> ring
    rw [hpair]
    have hnn : norm2 (-(px - s.center.1), -(py - s.center.2)) =
        norm2 (px - s.center.1, py - s.center.2) := by
      unfold norm2
      congr 1
      ring
    rw [hnn]
    rw [show (px - s.center.1) / norm2 (px - s.center.1, py - s.center.2) *
          ((2 * s.center.2 - py - s.center.2) /
            norm2 (px - s.center.1, py - s.center.2)) -
        (2 * s.center.1 - px - s.center.1) /
            norm2 (px - s.center.1, py - s.center.2) *
          ((py - s.center.2) / norm2 (px - s.center.1, py - s.center.2)) =
        0 from by ring]
    rw [show (px - s.center.1) / norm2 (px - s.center.1, py - s.center.2) *
          ((2 * s.center.1 - px - s.center.1) /
            norm2 (px - s.center.1, py - s.center.2)) +
        (py - s.center.2) / norm2 (px - s.center.1, py - s.center.2) *
          ((2 * s.center.2 - py - s.center.2) /
            norm2 (px - s.center.1, py - s.center.2)) =
        -((px - s.center.1) / norm2 (px - s.center.1, py - s.center.2) *
            ((px - s.center.1) / norm2 (px - s.center.1, py - s.center.2)) +
          (py - s.center.2) / norm2 (px - s.center.1, py - s.center.2) *
            ((py - s.center.2) / norm2 (px - s.center.1, py - s.center.2)))
        from by ring, hds, arctan2_zero_neg_one]

theorem C7_get_angle_zero_and_pi_witness :
    get_angle angState
        { inaxes := true, contains := true, xdata := some 1,
          ydata := some 0, x := 0, y := 0 } = some 0 ∧
    get_angle angState
        { inaxes := true, contains := true, xdata := some (-1),
          ydata := some 0, x := 0, y := 0 } = some Real.pi :=
  C7_get_angle_zero_and_pi angState [] 1 0 rfl
    (by simp [angState, Prod.ext_iff])
    { inaxes := true, contains := true, xdata := some 1,
      ydata := some 0, x := 0, y := 0 }
    { inaxes := true, contains := true, xdata := some (-1),
      ydata := some 0, x := 0, y := 0 }
    rfl rfl (by simp [angState]) (by simp [angState])

/-- **C9** — `get_angle` divides both the anchor vector and the current
vector by their norms with no zero guard, so the angle is a finite number
(`isSome`, the NaN case being `none`) exactly when both the pressed
anchor position and the (substituted) current pointer position differ
from the reference center; a press or motion exactly at the polygon's
midpoint yields NaN instead of a valid angle. -/
theorem C9_get_angle_defined_iff (s : TState) (xy : List V) (px py : ℝ)
    (hp : s.press = some (xy, some px, some py)) (e : Event) :
    (get_angle s e).isSome = true ↔
      (((px, py) : Pt) ≠ s.center ∧ mouse_position s e ≠ s.center) := by
  by_cases h0 : ((px - s.center.1, py - s.center.2) : Pt) = (0, 0)
  · have hu0 : unitize (px - s.center.1, py - s.center.2) = none := by
      rw [unitize, if_pos h0]
    simp only [get_angle, hp, hu0]
    have hc := (pt_sub_eq_zero_iff px py s.center).1 h0
    simp [hc]
  · by_cases h1 : (((mouse_position s e).1 - s.center.1,
        (mouse_position s e).2 - s.center.2) : Pt) = (0, 0)
    · have hu1 : unitize ((mouse_position s e).1 - s.center.1,
          (mouse_position s e).2 - s.center.2) = none := by
        rw [unitize, if_pos h1]
      simp only [get_angle, hp, unitize_of_ne _ h0, hu1]
      have hc1 : mouse_position s e = s.center := by
        have h' := (pt_sub_eq_zero_iff (mouse_position s e).1
          (mouse_position s e).2 s.center).1 h1
        exact (Prod.mk.eta).symm.trans h'
      simp [hc1]
    · simp only [get_angle, hp, unitize_of_ne _ h0, unitize_of_ne _ h1,
        Option.isSome_some, true_iff]
      constructor
      · exact fun hcon => h0 ((pt_sub_eq_zero_iff px py s.center).2 hcon)
      · exact fun hcon => h1 ((pt_sub_eq_zero_iff (mouse_position s e).1
          (mouse_position s e).2 s.center).2 ((Prod.mk.eta).trans hcon))

theorem C9_get_angle_defined_iff_witness :
    (get_angle angState
        { inaxes := true, contains := true, xdata := some 5,
          ydata := some 5, x := 0, y := 0 }).isSome = true ↔
      ((((1 : ℝ), (0 : ℝ)) : Pt) ≠ angState.center ∧
        mouse_position angState
          { inaxes := true, contains := true, xdata := some 5,
            ydata := some 5, x := 0, y := 0 } ≠ angState.center) :=
  C9_get_angle_defined_iff angState [] 1 0 rfl
    { inaxes := true, contains := true, xdata := some 5,
      ydata := some 5, x := 0, y := 0 }

namespace MaskDialog

theorem dlookup_dset_self {α : Type} (k : String) (v : α)
    (l : List (String × α)) : dlookup k (dset k v l) = some v := by
  induction l with
  | nil => simp [dset, dlookup]
  | cons p r ih =>
    obtain ⟨a, b⟩ := p
    by_cases ha : a = k
    · simp [dset, ha, dlookup]
    · simp [dset, ha, dlookup, ih]

theorem dlookup_dset_ne {α : Type} (k k' : String) (v : α)
    (l : List (String × α)) (h : k ≠ k') :
    dlookup k' (dset k v l) = dlookup k' l := by
  induction l with
  | nil => simp [dset, dlookup, h]
  | cons p r ih =>
    obtain ⟨a, b⟩ := p
    by_cases ha : a = k
    · simp [dset, ha, dlookup, h]
    · simp [dset, ha, dlookup, ih]

theorem dlookup_eq_none_of_not_mem {α : Type} (k : String)
    (l : List (String × α)) (h : k ∉ l.map Prod.fst) :
    dlookup k l = none := by
  induction l with
  | nil => rfl
  | cons p r ih =>
    obtain ⟨a, b⟩ := p
    simp only [List.map_cons, List.mem_cons] at h
    push_neg at h
    simp only [dlookup, if_neg (Ne.symm h.1)]
    exact ih h.2

theorem dlookup_dremove_self {α : Type} (k : String)
    (l : List (String × α)) (hnd : (l.map Prod.fst).Nodup) :
    dlookup k (dremove k l) = none := by
  induction l with
  | nil => rfl
  | cons p r ih =>
    obtain ⟨a, b⟩ := p
    simp only [List.map_cons, List.nodup_cons] at hnd
    by_cases ha : a = k
    · subst ha
      simp only [dremove, if_pos rfl]
      exact dlookup_eq_none_of_not_mem a r hnd.1
    · simp only [dremove, if_neg ha, dlookup, if_neg ha]
      exact ih hnd.2

/-- **C4** — Committing a rename whose new name is already a key of the
registry is a silent no-op: the handler reverts the displayed cell text to
the old name and returns early, so the `masks` mapping, the visibility
list and all four side stores are left completely unchanged and no
exception is raised. -/
theorem C4_rename_collision_noop (R : RState) (old new_name : String)
    (h1 : R.old_name = some old) (h2 : old ≠ new_name)
    (h3 : (dlookup new_name R.masks).isSome = true) :
    update_mask_name R new_name = ({ R with displayed := old }, none) := by
  simp only [update_mask_name, h1]
  rw [if_neg h2, if_pos h3]

theorem C4_rename_collision_noop_witness :
    update_mask_name R4w "b" = ({ R4w with displayed := "a" }, none) :=
  C4_rename_collision_noop R4w "a" "b" rfl (by decide) rfl

/-- **C5 (counterexample)** — The claim says a successful rename
propagates the old name to the visibility list in place and never raises.
On the concrete input `R5` (mask `"a"` of polar type, visible in first
position, renamed to the fresh name `"c"`), the commit raises
`AttributeError` — line 205 reads `self.visible`, an attribute never
assigned anywhere in `MaskManagerDialog` — and the visibility list is
left as `["a", "b"]`, with no `"c"` anywhere, let alone in first
position. -/
theorem C5_counterexample :
    (update_mask_name R5 "c").2 = some "AttributeError" ∧
    (update_mask_name R5 "c").1.visible_masks = ["a", "b"] :=
  ⟨rfl, rfl⟩

theorem rename_tail_none (R : RState) (new_name old : String)
    (hp : dlookup old R.polar_masks = none)
    (hr : dlookup old R.raw_masks = none) :
    rename_tail R new_name old = (R, some "AttributeError") := by
  simp only [rename_tail, hp, hr]

/-- **C5 (amended)** — A successful rename of a polar-type mask re-keys
the `masks` entry under the new name and moves the type-specific
line-data entry into the `polar_masks` store under the new name, but the
commit then always raises `AttributeError` (line 205 references the
undefined attribute `self.visible`), so the visibility list is left
completely unchanged rather than updated in place. -/
theorem C5_rename_rekeys_but_raises (R : RState) (old new_name : String)
    (v w : Payload)
    (h1 : R.old_name = some old) (h2 : old ≠ new_name)
    (h3 : dlookup new_name R.masks = none)
    (h4 : dlookup old R.masks = some ("polar", v))
    (h5 : dlookup old R.polar_masks_line_data = some w)
    (h6 : dlookup old R.polar_masks = none)
    (h7 : dlookup old R.raw_masks = none)
    (hnd : (R.masks.map Prod.fst).Nodup)
    (hnd2 : (R.polar_masks_line_data.map Prod.fst).Nodup) :
    (update_mask_name R new_name).2 = some "AttributeError" ∧
    dlookup new_name (update_mask_name R new_name).1.masks =
      some ("polar", v) ∧
    dlookup old (update_mask_name R new_name).1.masks = none ∧
    (update_mask_name R new_name).1.visible_masks = R.visible_masks ∧
    dlookup old (update_mask_name R new_name).1.polar_masks_line_data =
      none ∧
    dlookup new_name (update_mask_name R new_name).1.polar_masks =
      some w := by
  obtain ⟨Ms, Vis, PLD, PM, RLD, RM, D, ON⟩ := R
  dsimp only at h1 h3 h4 h5 h6 h7 hnd hnd2 ⊢
  subst h1
  have hp' : dlookup old (dset new_name w PM) = none := by
    rw [dlookup_dset_ne new_name old w PM (Ne.symm h2)]
    exact h6
  have hstep : update_mask_name ⟨Ms, Vis, PLD, PM, RLD, RM, D, some old⟩
        new_name =
      (⟨dset new_name ("polar", v) (dremove old Ms), Vis,
        dremove old PLD, dset new_name w PM, RLD, RM, new_name, some old⟩,
       some "AttributeError") := by
    simp only [update_mask_name]
    rw [if_neg h2, h3, h4, h5]
    show rename_tail
        ⟨dset new_name ("polar", v) (dremove old Ms), Vis,
          dremove old PLD, dset new_name w PM, RLD, RM, new_name,
          some old⟩ new_name old = _
    exact rename_tail_none _ new_name old hp' h7
  rw [hstep]
  refine ⟨rfl, ?_, ?_, rfl, ?_, ?_⟩
  · exact dlookup_dset_self new_name ("polar", v) (dremove old Ms)
  · rw [dlookup_dset_ne new_name old ("polar", v) (dremove old Ms)
      (Ne.symm h2)]
    exact dlookup_dremove_self old Ms hnd
  · exact dlookup_dremove_self old PLD hnd2
  · exact dlookup_dset_self new_name w PM

theorem C5_rename_rekeys_but_raises_witness :
    (update_mask_name R5w "n").2 = some "AttributeError" ∧
    dlookup "n" (update_mask_name R5w "n").1.masks =
      some ("polar", [2]) ∧
    dlookup "m" (update_mask_name R5w "n").1.masks = none ∧
    (update_mask_name R5w "n").1.visible_masks = R5w.visible_masks ∧
    dlookup "m" (update_mask_name R5w "n").1.polar_masks_line_data =
      none ∧
    dlookup "n" (update_mask_name R5w "n").1.polar_masks = some [2] :=
  C5_rename_rekeys_but_raises R5w "m" "n" [2] [2] rfl (by decide) rfl rfl
    rfl rfl rfl (by decide) (by decide)

/-- **C6 (code-bug evaluation)** — The claim says ingestion adds a mask
only when no existing entry has identical payload data, so two masks with
identical payloads under different names yield one entry.  In
`create_masks_list` the dedup test `np.array_equal(m, val)` compares the
stored `(type, data)` TUPLE `m` against the bare payload `val`, which can
never succeed (see `np_array_equal_entry_payload`); with two polar masks
carrying the identical payload `[7]`, BOTH are added.  The sibling
`update_masks_list` unpacks `for t, m in vals` and compares payloads, so
the un-unpacked comparison here is a slip. -/
theorem C6_create_masks_list_duplicate_payloads
    (rawEq : Entry → Entry → Bool) :
    (create_masks_list rawEq [("m1", [7]), ("m2", [7])] [] false []).1 =
      [("m1", ("polar", [7])), ("m2", ("polar", [7]))] := rfl

end MaskDialog

end HexrdGui
